import Mathlib

/-!
# DotNetReflectiveLoading: the CLR hosting wrapper of `clr.cpp`

A shallow embedding of `clr::ClrAssembly::construct`, `clr::ClrDomain::ClrDomain` and
`clr::ClrDomain::load`.

* COM interface pointers are records holding what each method answers (status code and
  out-parameter), so a theorem quantified over such a record speaks about every behaviour of
  the hosted engine.
* Every call that leaves the program (COM method, `CLRCreateInstance`, `SafeArray*`) is
  appended to a `Trace`, in program order, together with the arguments that matter.
* `HRESULT` is a signed status code; `FAILED` is the `winerror.h` test `hr < 0`.
* `std::vector<uint8_t>` is a list of bytes, `std::wstring` and `BSTR` are strings;
  `pName == classname` reads the `BSTR` on its left as a C string, up to its first NUL.
* `std::unique_ptr<ClrAssembly>` is an `Option`, a C++ exception is the `error` side of
  `Except`.
-/

namespace clr

/-! ## Platform types -/

/-- Status code of a COM call (a signed 32-bit integer in the platform headers). -/
abbrev HRESULT := Int

/-- Win32 `BOOL`: an `int`, zero is `FALSE`. -/
abbrev BOOL := Int

/-- COM wide string: a counted sequence of characters, which may hold NUL characters; also
stands for `std::wstring`. -/
abbrev BSTR := String

/-- The characters of a `BSTR` as read through a `const wchar_t*`: those before its first NUL
character (U+0000). -/
def c_str (s : BSTR) : String := ⟨s.data.takeWhile (fun c => c != Char.ofNat 0)⟩

/-- The comparison `operator==(const wchar_t*, const std::wstring&)` that `pName == classname`
resolves to: the C string on the left against the whole `std::wstring` on the right. -/
def wstring_eq (lhs : BSTR) (rhs : String) : Bool := c_str lhs == rhs

/-- One byte of a module image. -/
abbrev uint8_t := Fin 256

/-- An automation variant, seen as a handle produced by the engine. -/
abbrev variant_t := Nat

def S_OK : HRESULT := 0

def E_FAIL : HRESULT := -2147467259

/-- The `FAILED` test of `winerror.h`: `((HRESULT)(hr)) < 0`. -/
def FAILED (hr : HRESULT) : Bool := decide (hr < 0)

/-- Largest value of the 32-bit `ULONG` of the Windows ABI. -/
def ULONG_MAX : Nat := 4294967295

/-- The conversion `static_cast<ULONG>(n)`: reduction modulo `2^32`. -/
def static_cast_ULONG (n : Nat) : Nat := n % (ULONG_MAX + 1)

/-- Conversion of a C++ `bool` to an integer type: `true` is 1, `false` is 0. -/
def boolToHRESULT (b : Bool) : HRESULT := if b then 1 else 0

/-- A one-dimensional `VT_UI1` safe array: where it lives, how many elements it was created
with, and the bytes behind its data pointer. -/
structure SAFEARRAY where
  addr : Nat
  cElements : Nat
  pvData : List uint8_t
deriving DecidableEq, Repr

/-- Calls that leave the program, with the arguments that matter. -/
inductive Call where
  | CLRCreateInstance
  | GetRuntime (version : String)
  | IsLoadable
  | GetInterface
  | Start
  | Stop
  | GetDefaultDomain
  | QueryInterface
  | SafeArrayCreateVector (cElements : Nat)
  | SafeArrayAccessData
  | SafeArrayUnaccessData
  | Load_3 (rawAssembly : SAFEARRAY)
  | GetTypes
  | SafeArrayGetLBound
  | SafeArrayGetUBound
  | get_FullName (i : Nat)
  | CreateInstance (typeName : BSTR)
deriving DecidableEq, Repr

abbrev Trace := List Call

/-- Recognises the `CreateInstance` calls of a trace. -/
def Call.isCreateInstance : Call → Bool
  | .CreateInstance _ => true
  | _ => false

/-- Recognises the `get_FullName` calls of a trace. -/
def Call.isGetFullName : Call → Bool
  | .get_FullName _ => true
  | _ => false

/-! ## COM objects of the hosted engine -/

/-- The object behind `mscorlib::_TypePtr`: the answer of `get_FullName(&pName)`. -/
structure _Type where
  get_FullName : HRESULT × BSTR

abbrev _TypePtr := _Type

/-- The safe array of `_Type*` that `GetTypes` hands out: its lower bound and its elements. -/
structure TypeArray where
  lLbound : Int
  pvData : List _TypePtr

/-- The API `SafeArrayGetLBound(psa, 1, &l)`. -/
def SafeArrayGetLBound (psa : TypeArray) : Int := psa.lLbound

/-- The API `SafeArrayGetUBound(psa, 1, &u)`: lower bound + element count - 1. -/
def SafeArrayGetUBound (psa : TypeArray) : Int := psa.lLbound + psa.pvData.length - 1

/-- The object behind `mscorlib::_AssemblyPtr`: `GetTypes(&pArray)` and
`CreateInstance(name, &var)`; the latter sees the caller's variant and leaves the new one. -/
structure _Assembly where
  GetTypes : HRESULT × TypeArray
  CreateInstance : BSTR → variant_t → HRESULT × variant_t

abbrev _AssemblyPtr := _Assembly

/-- The object behind `mscorlib::_AppDomainPtr`: `Load_3(rawAssembly, &pAsm)`. -/
structure _AppDomain where
  Load_3 : SAFEARRAY → HRESULT × _AssemblyPtr

abbrev _AppDomainPtr := _AppDomain

/-- The domain thunk behind `IUnknownPtr`: `QueryInterface` for the `_AppDomain` interface. -/
structure IUnknown where
  QueryInterface : HRESULT × _AppDomainPtr

abbrev IUnknownPtr := IUnknown

/-- The interface `ICorRuntimeHost`, as far as the program uses it. -/
structure ICorRuntimeHost where
  Start : HRESULT
  Stop : HRESULT
  GetDefaultDomain : HRESULT × IUnknownPtr

/-- The interface `ICLRRuntimeInfo`: `IsLoadable(&loadable)` answers a status and the value
left in `loadable` (which starts as `FALSE`); `GetInterface` answers the runtime host. -/
structure ICLRRuntimeInfo where
  IsLoadable : HRESULT × BOOL
  GetInterface : HRESULT × ICorRuntimeHost

/-- The interface `ICLRMetaHost`: `GetRuntime(version, ...)`. -/
structure ICLRMetaHost where
  GetRuntime : String → HRESULT × ICLRRuntimeInfo

/-- The free functions of the platform the program calls: `CLRCreateInstance`, whether
`SafeArrayCreateVector` finds memory for a given element count (and where), and the status of
`SafeArrayAccessData` on a byte array. -/
structure Win32 where
  CLRCreateInstance : HRESULT × ICLRMetaHost
  SafeArrayAlloc : Nat → Option Nat
  SafeArrayAccessData : SAFEARRAY → HRESULT

/-- The API `SafeArrayCreateVector(VT_UI1, 0, cElements)`: null when no memory is found,
otherwise a zero-filled array of exactly `cElements` bytes. -/
def SafeArrayCreateVector (api : Win32) (cElements : Nat) : Option SAFEARRAY :=
  (api.SafeArrayAlloc cElements).map fun a => ⟨a, cElements, List.replicate cElements 0⟩

/-- The call `memcpy(buf, src.data(), n)` on the data of a safe array: the first `n` bytes
behind the data pointer become the first `n` bytes of `src`. -/
def memcpy (dst : SAFEARRAY) (src : List uint8_t) (n : Nat) : SAFEARRAY :=
  ⟨dst.addr, dst.cElements, src.take n ++ dst.pvData.drop n⟩

/-! ## `ClrAssembly` -/

/-- The class `clr::ClrAssembly`: wraps the assembly pointer `p_`. -/
structure ClrAssembly where
  p_ : _AssemblyPtr

/-- The `for` loop of `ClrAssembly::construct` over `pTypes[i]`, `i < elem_count`, started at
index `i` on the elements still to visit. Answers `found`, `pName` and the trace. -/
def ClrAssembly.scan (classname : String) :
    List _TypePtr → Nat → BSTR → Trace → Bool × BSTR × Trace
  | [], _, pName, tr => (false, pName, tr)
  | pClsType :: rest, i, _, tr =>
    let hr := pClsType.get_FullName.1
    let pName := pClsType.get_FullName.2
    let tr := tr ++ [Call.get_FullName i]
    if FAILED hr then (false, pName, tr)
    else if wstring_eq pName classname then (true, pName, tr)
    else ClrAssembly.scan classname rest (i + 1) pName tr

/-- The method `ClrAssembly::construct(classname, var)`: answers the returned `bool`, the
caller's variant after the call, and the trace. -/
def ClrAssembly.construct (self : ClrAssembly) (classname : String) (var : variant_t)
    (tr : Trace) : Bool × variant_t × Trace :=
  let pName : BSTR := ""
  let hr := self.p_.GetTypes.1
  let pArray := self.p_.GetTypes.2
  let tr := tr ++ [Call.GetTypes]
  if FAILED hr then (false, var, tr)
  else
    let lower_bound := SafeArrayGetLBound pArray
    let upper_bound := SafeArrayGetUBound pArray
    let pTypes := pArray.pvData
    let tr := tr ++ [Call.SafeArrayGetLBound, Call.SafeArrayGetUBound, Call.SafeArrayAccessData]
    let elem_count := upper_bound - lower_bound + 1
    let r := ClrAssembly.scan classname (pTypes.take elem_count.toNat) 0 pName tr
    let found := r.1
    let pName := r.2.1
    let tr := r.2.2 ++ [Call.SafeArrayUnaccessData]
    if !found then (false, var, tr)
    else
      let hr := (self.p_.CreateInstance pName var).1
      let var := (self.p_.CreateInstance pName var).2
      let tr := tr ++ [Call.CreateInstance pName]
      let found := if FAILED hr then false else found
      (found, var, tr)

/-! ## `ClrDomain` -/

/-- The class `clr::ClrDomain`: the three interface pointers and the list `arr_` of safe
arrays handed to the engine. -/
structure ClrDomain where
  pMeta_ : ICLRMetaHost
  pRuntime_ : ICLRRuntimeInfo
  pHost_ : ICorRuntimeHost
  arr_ : List SAFEARRAY

set_option linter.dupNamespace false in
/-- The constructor `ClrDomain::ClrDomain(clr_version)`: the host, or the message of the
exception thrown, and the trace. The third test is `FAILED((hr = IsLoadable(..)) || !loadable)`
as written: `FAILED` is applied to the `bool` value of the disjunction. -/
def ClrDomain.ClrDomain (api : Win32) (clr_version : String) (tr : Trace) :
    Except String ClrDomain × Trace :=
  let hr := api.CLRCreateInstance.1
  let pMeta_ := api.CLRCreateInstance.2
  let tr := tr ++ [Call.CLRCreateInstance]
  if FAILED hr then (.error "Host initialization failed!", tr)
  else
    let hr := (pMeta_.GetRuntime clr_version).1
    let pRuntime_ := (pMeta_.GetRuntime clr_version).2
    let tr := tr ++ [Call.GetRuntime clr_version]
    if FAILED hr then (.error "Runtime init failed!", tr)
    else
      let hr := pRuntime_.IsLoadable.1
      let loadable := pRuntime_.IsLoadable.2
      let tr := tr ++ [Call.IsLoadable]
      if FAILED (boolToHRESULT (hr != 0 || loadable == 0)) then
        (.error "Runtime not loadable!", tr)
      else
        let hr := pRuntime_.GetInterface.1
        let pHost_ := pRuntime_.GetInterface.2
        let tr := tr ++ [Call.GetInterface]
        if FAILED hr then (.error "Unable to host application!", tr)
        else
          let hr := pHost_.Start
          let tr := tr ++ [Call.Start]
          if FAILED hr then (.error "Host start failed!", tr)
          else (.ok ⟨pMeta_, pRuntime_, pHost_, []⟩, tr)

/-- The method `ClrDomain::load(mod)`: the returned pointer (`none` is `nullptr`), the host
after the call, and the trace. -/
def ClrDomain.load (api : Win32) (self : clr.ClrDomain) (mod : List uint8_t) (tr : Trace) :
    Option ClrAssembly × clr.ClrDomain × Trace :=
  let modSize := mod.length
  if modSize > ULONG_MAX then (none, self, tr)
  else
    let hr := self.pHost_.GetDefaultDomain.1
    let pDomainThunk := self.pHost_.GetDefaultDomain.2
    let tr := tr ++ [Call.GetDefaultDomain]
    if FAILED hr then (none, self, tr)
    else
      let hr := pDomainThunk.QueryInterface.1
      let pAppDomain := pDomainThunk.QueryInterface.2
      let tr := tr ++ [Call.QueryInterface]
      if FAILED hr then (none, self, tr)
      else
        let tr := tr ++ [Call.SafeArrayCreateVector (static_cast_ULONG modSize)]
        match SafeArrayCreateVector api (static_cast_ULONG modSize) with
        | none => (none, self, tr)
        | some pModContainer =>
          let hr := api.SafeArrayAccessData pModContainer
          let tr := tr ++ [Call.SafeArrayAccessData]
          if FAILED hr then (none, self, tr)
          else
            let pModContainer := memcpy pModContainer mod mod.length
            let tr := tr ++ [Call.SafeArrayUnaccessData]
            let hr := (pAppDomain.Load_3 pModContainer).1
            let pAsm := (pAppDomain.Load_3 pModContainer).2
            let tr := tr ++ [Call.Load_3 pModContainer]
            if FAILED hr then (none, self, tr)
            else
              (some ⟨pAsm⟩, { self with arr_ := self.arr_ ++ [pModContainer] }, tr)

/-- A client calling `load` on one host several times in a row, each call with its own
platform behaviour and image: the pointers returned, the host at the end, and the trace. -/
def ClrDomain.loadAll (self : clr.ClrDomain) :
    List (Win32 × List uint8_t) → Trace → List (Option ClrAssembly) × clr.ClrDomain × Trace
  | [], tr => ([], self, tr)
  | c :: rest, tr =>
    let r := ClrDomain.load c.1 self c.2 tr
    let rs := ClrDomain.loadAll r.2.1 rest r.2.2
    (r.1 :: rs.1, rs.2.1, rs.2.2)

/-! ## Concrete engines used to instantiate the results -/

/-- A descriptor that reports the name `n`. -/
def demoType (n : String) : _Type := ⟨(S_OK, n)⟩

/-- A reported name with an embedded NUL: `Demo.Widget`, NUL, `Extra` (17 characters). -/
def demoNulName : BSTR := ("Demo.Widget".push (Char.ofNat 0)) ++ "Extra"

/-- A descriptor whose name query fails. -/
def demoBrokenType : _Type := ⟨(E_FAIL, "")⟩

/-- An assembly with catalogue `cat`; `CreateInstance` answers `hr`, leaving `inst` in the
variant when it succeeds and the variant untouched when it fails. -/
def demoAssembly (cat : List _Type) (hr : HRESULT) (inst : variant_t) : _Assembly :=
  ⟨(S_OK, ⟨0, cat⟩), fun _ v => if FAILED hr then (hr, v) else (hr, inst)⟩

/-- Four types, one of them `Demo.Widget`, one differing from it in letter case only. -/
def demoCatalogue : List _Type :=
  [demoType "Demo.Other", demoType "demo.widget", demoType "Demo.Widget", demoType "Demo.Last"]

/-- An application domain that accepts images starting with the byte `0x4D` only. -/
def demoAppDomain : _AppDomain :=
  ⟨fun raw => if raw.pvData.head? = some 77 then (S_OK, demoAssembly demoCatalogue S_OK 42)
    else (E_FAIL, demoAssembly [] E_FAIL 0)⟩

def demoHost : ICorRuntimeHost := ⟨S_OK, S_OK, (S_OK, ⟨(S_OK, demoAppDomain)⟩)⟩

/-- A runtime that reports itself loadable. -/
def demoRuntime : ICLRRuntimeInfo := ⟨(S_OK, 1), (S_OK, demoHost)⟩

/-- A runtime that answers `loadable = FALSE`. -/
def demoRuntimeNotLoadable : ICLRRuntimeInfo := ⟨(S_OK, 0), (S_OK, demoHost)⟩

/-- A runtime whose `IsLoadable` query fails. -/
def demoRuntimeQueryFails : ICLRRuntimeInfo := ⟨(E_FAIL, 0), (S_OK, demoHost)⟩

/-- A platform on which every call succeeds, handing out the runtime `rt`. -/
def demoWin32 (rt : ICLRRuntimeInfo) : Win32 :=
  ⟨(S_OK, ⟨fun _ => (S_OK, rt)⟩), fun _ => some 4096, fun _ => S_OK⟩

/-- A started host that retains one earlier buffer. -/
def demoDomain : ClrDomain := ⟨⟨fun _ => (S_OK, demoRuntime)⟩, demoRuntime, demoHost, [⟨512, 1, [77]⟩]⟩

/-! ## The scan of the type catalogue -/

/-- The element count computed from the two bounds is the length of the catalogue. -/
theorem take_elem_count (pArray : TypeArray) :
    pArray.pvData.take (SafeArrayGetUBound pArray - SafeArrayGetLBound pArray + 1).toNat
      = pArray.pvData := by
  have h : (SafeArrayGetUBound pArray - SafeArrayGetLBound pArray + 1).toNat
      = pArray.pvData.length := by
    unfold SafeArrayGetUBound SafeArrayGetLBound
    omega
  rw [h, List.take_length]

/-- A name without NUL character is read whole. -/
theorem c_str_of_no_nul (s : BSTR) (h : Char.ofNat 0 ∉ s.data) : c_str s = s := by
  unfold c_str
  have hw : s.data.takeWhile (fun c => c != Char.ofNat 0) = s.data := by
    rw [List.takeWhile_eq_self_iff]
    intro c hc
    simp only [bne_iff_ne, ne_eq]
    rintro rfl
    exact h hc
  rw [hw]

/-- A leading segment as long as the list is the list. -/
theorem takeWhile_of_length {α : Type} (p : α → Bool) (l : List α)
    (h : (l.takeWhile p).length = l.length) : l.takeWhile p = l := by
  induction l with
  | nil => rfl
  | cons a l ih =>
    cases hp : p a with
    | true =>
      simp only [List.takeWhile_cons, hp, if_true, List.length_cons,
        Nat.add_right_cancel_iff] at h ⊢
      rw [ih h]
    | false => simp [List.takeWhile_cons, hp] at h

/-- A reported name as long as the requested one and different from it is read as
different: no match arises between two distinct names of one length. -/
theorem c_str_ne_of_same_length (s : BSTR) (t : String) (hne : s ≠ t)
    (hlen : s.data.length = t.data.length) : c_str s ≠ t := by
  intro h
  have hd : s.data.takeWhile (fun c => c != Char.ofNat 0) = t.data := by
    rw [← h]; rfl
  have hw := takeWhile_of_length (fun c => c != Char.ofNat 0) s.data (by rw [hd, hlen])
  apply hne
  apply String.ext
  rw [← hw, hd]

/-- Descriptors whose reported name does not compare equal to the requested one are passed
over. -/
theorem scan_skip (classname : String) (pre rest : List _TypePtr)
    (hpre : ∀ u ∈ pre, FAILED u.get_FullName.1 = false ∧ c_str u.get_FullName.2 ≠ classname)
    (i : Nat) (pName : BSTR) (tr : Trace) :
    ∃ pName', ClrAssembly.scan classname (pre ++ rest) i pName tr
      = ClrAssembly.scan classname rest (i + pre.length) pName'
          (tr ++ (List.range' i pre.length).map Call.get_FullName) := by
  induction pre generalizing i pName tr with
  | nil => exact ⟨pName, by simp⟩
  | cons u pre ih =>
    have hu := hpre u (List.mem_cons_self _ _)
    have hne : wstring_eq u.get_FullName.2 classname = false := by
      simpa [wstring_eq] using hu.2
    obtain ⟨q, hq⟩ := ih (fun v hv => hpre v (List.mem_cons_of_mem _ hv)) (i + 1)
      u.get_FullName.2 (tr ++ [Call.get_FullName i])
    refine ⟨q, ?_⟩
    simp only [List.cons_append, ClrAssembly.scan, hu.1, hne, Bool.false_eq_true, if_false,
      List.append_eq]
    rw [hq]
    simp [List.range'_succ, Nat.add_assoc, Nat.add_comm 1]

/-- The scan stops with `found` at the first descriptor whose reported name compares equal
to the requested one; `pName` is that descriptor's name as reported. -/
theorem scan_match (classname : String) (pre : List _TypePtr) (t : _TypePtr)
    (post : List _TypePtr)
    (hpre : ∀ u ∈ pre, FAILED u.get_FullName.1 = false ∧ c_str u.get_FullName.2 ≠ classname)
    (hok : FAILED t.get_FullName.1 = false) (hname : c_str t.get_FullName.2 = classname)
    (i : Nat) (pName : BSTR) (tr : Trace) :
    ClrAssembly.scan classname (pre ++ t :: post) i pName tr
      = (true, t.get_FullName.2,
          tr ++ (List.range' i (pre.length + 1)).map Call.get_FullName) := by
  obtain ⟨q, hq⟩ := scan_skip classname pre (t :: post) hpre i pName tr
  have heq : wstring_eq t.get_FullName.2 classname = true := by simp [wstring_eq, hname]
  rw [hq]
  simp [ClrAssembly.scan, hok, heq, List.range'_concat]

/-- The scan stops without `found` at the first descriptor whose name query fails. -/
theorem scan_query_fails (classname : String) (pre : List _TypePtr) (t : _TypePtr)
    (post : List _TypePtr)
    (hpre : ∀ u ∈ pre, FAILED u.get_FullName.1 = false ∧ c_str u.get_FullName.2 ≠ classname)
    (hfail : FAILED t.get_FullName.1 = true) (i : Nat) (pName : BSTR) (tr : Trace) :
    ClrAssembly.scan classname (pre ++ t :: post) i pName tr
      = (false, t.get_FullName.2,
          tr ++ (List.range' i (pre.length + 1)).map Call.get_FullName) := by
  obtain ⟨q, hq⟩ := scan_skip classname pre (t :: post) hpre i pName tr
  rw [hq]
  simp [ClrAssembly.scan, hfail, List.range'_concat]

/-- When no descriptor's reported name compares equal to the requested one the scan ends
without `found`, and all it adds to the trace are name queries. -/
theorem scan_no_match (classname : String) (l : List _TypePtr)
    (hl : ∀ u ∈ l, FAILED u.get_FullName.1 = false → c_str u.get_FullName.2 ≠ classname)
    (i : Nat) (pName : BSTR) (tr : Trace) :
    (ClrAssembly.scan classname l i pName tr).1 = false ∧
      ∃ new, (ClrAssembly.scan classname l i pName tr).2.2 = tr ++ new ∧
        ∀ c ∈ new, c.isGetFullName = true := by
  induction l generalizing i pName tr with
  | nil => exact ⟨rfl, [], by simp [ClrAssembly.scan], by simp⟩
  | cons u l ih =>
    have hu := hl u (List.mem_cons_self _ _)
    cases hf : FAILED u.get_FullName.1 with
    | true =>
      refine ⟨by simp [ClrAssembly.scan, hf], [Call.get_FullName i], ?_, ?_⟩
      · simp [ClrAssembly.scan, hf]
      · simp [Call.isGetFullName]
    | false =>
      have hne : wstring_eq u.get_FullName.2 classname = false := by
        simpa [wstring_eq] using hu hf
      obtain ⟨h1, new, h2, h3⟩ := ih (fun v hv => hl v (List.mem_cons_of_mem _ hv)) (i + 1)
        u.get_FullName.2 (tr ++ [Call.get_FullName i])
      refine ⟨?_, Call.get_FullName i :: new, ?_, ?_⟩
      · simpa [ClrAssembly.scan, hf, hne] using h1
      · simp only [ClrAssembly.scan, hf, hne, Bool.false_eq_true, if_false]
        rw [h2]; simp
      · intro c hc
        rcases List.mem_cons.mp hc with rfl | hc
        · rfl
        · exact h3 c hc

/-- A list with an element satisfying `p` splits at the first such element. -/
theorem split_at_first {α : Type} (p : α → Bool) (l : List α) (h : ∃ x ∈ l, p x = true) :
    ∃ pre t post, l = pre ++ t :: post ∧ p t = true ∧ ∀ u ∈ pre, p u = false := by
  induction l with
  | nil => obtain ⟨x, hx, _⟩ := h; cases hx
  | cons a l ih =>
    cases ha : p a with
    | true => exact ⟨[], a, l, rfl, ha, by simp⟩
    | false =>
      have h' : ∃ x ∈ l, p x = true := by
        obtain ⟨x, hx, hpx⟩ := h
        rcases List.mem_cons.mp hx with rfl | hx
        · rw [ha] at hpx; cases hpx
        · exact ⟨x, hx, hpx⟩
      obtain ⟨pre, t, post, hl, ht, hpre⟩ := ih h'
      refine ⟨a :: pre, t, post, by simp [hl], ht, ?_⟩
      intro u hu
      rcases List.mem_cons.mp hu with rfl | hu
      · exact ha
      · exact hpre u hu

/-- With the catalogue enumerated, `construct` is its scan followed by the instance request. -/
theorem construct_of_scan (self : ClrAssembly) (classname : String) (var : variant_t)
    (tr : Trace) (hok : FAILED self.p_.GetTypes.1 = false) (found : Bool) (pName : BSTR)
    (tr' : Trace)
    (hscan : ClrAssembly.scan classname self.p_.GetTypes.2.pvData 0 ""
      (tr ++ [Call.GetTypes] ++
        [Call.SafeArrayGetLBound, Call.SafeArrayGetUBound, Call.SafeArrayAccessData])
      = (found, pName, tr')) :
    self.construct classname var tr =
      if found then
        (!FAILED (self.p_.CreateInstance pName var).1, (self.p_.CreateInstance pName var).2,
          tr' ++ [Call.SafeArrayUnaccessData] ++ [Call.CreateInstance pName])
      else (false, var, tr' ++ [Call.SafeArrayUnaccessData]) := by
  unfold ClrAssembly.construct
  simp only [hok, Bool.false_eq_true, if_false, take_elem_count, hscan]
  cases found <;> cases FAILED (self.p_.CreateInstance pName var).1 <;> simp

/-- With the catalogue enumerated and no reported name comparing equal to the requested
one: what `construct` returns and what it adds to the trace. -/
theorem construct_without_match (self : ClrAssembly) (classname : String) (var : variant_t)
    (tr : Trace) (hok : FAILED self.p_.GetTypes.1 = false)
    (hnone : ∀ t ∈ self.p_.GetTypes.2.pvData,
      FAILED t.get_FullName.1 = false → c_str t.get_FullName.2 ≠ classname) :
    (self.construct classname var tr).1 = false ∧
      (self.construct classname var tr).2.1 = var ∧
      ∃ new, (self.construct classname var tr).2.2 = tr ++ new ∧
        ∀ c ∈ new, c.isCreateInstance = false := by
  obtain ⟨h1, new, h2, h3⟩ := scan_no_match classname self.p_.GetTypes.2.pvData hnone 0 ""
    (tr ++ [Call.GetTypes] ++
      [Call.SafeArrayGetLBound, Call.SafeArrayGetUBound, Call.SafeArrayAccessData])
  have hc := construct_of_scan self classname var tr hok _ _ _ rfl
  rw [h1, h2] at hc
  simp only [Bool.false_eq_true, if_false] at hc
  rw [hc]
  refine ⟨rfl, rfl, [Call.GetTypes, Call.SafeArrayGetLBound, Call.SafeArrayGetUBound,
    Call.SafeArrayAccessData] ++ new ++ [Call.SafeArrayUnaccessData], by simp, ?_⟩
  intro c hc'
  simp only [List.mem_append, List.mem_cons, List.mem_singleton, List.not_mem_nil,
    or_false] at hc'
  rcases hc' with (h | h) | h
  · rcases h with rfl | rfl | rfl | rfl <;> rfl
  · have := h3 c h
    cases c <;> simp_all [Call.isGetFullName, Call.isCreateInstance]
  · subst h; rfl

/-- With the first descriptor whose reported name compares equal to the requested one at
index `pre.length`, and the descriptors before it reporting names that do not: what
`construct` returns. The instance is requested under the matched name as reported. -/
theorem construct_at_first_match (self : ClrAssembly) (classname : String) (var : variant_t)
    (tr : Trace) (pre : List _TypePtr) (t : _TypePtr) (post : List _TypePtr)
    (hok : FAILED self.p_.GetTypes.1 = false)
    (hcat : self.p_.GetTypes.2.pvData = pre ++ t :: post)
    (hpre : ∀ u ∈ pre, FAILED u.get_FullName.1 = false ∧ c_str u.get_FullName.2 ≠ classname)
    (ht : FAILED t.get_FullName.1 = false ∧ c_str t.get_FullName.2 = classname) :
    self.construct classname var tr =
      (!FAILED (self.p_.CreateInstance t.get_FullName.2 var).1,
        (self.p_.CreateInstance t.get_FullName.2 var).2,
        tr ++ [Call.GetTypes, Call.SafeArrayGetLBound, Call.SafeArrayGetUBound,
            Call.SafeArrayAccessData]
          ++ (List.range (pre.length + 1)).map Call.get_FullName
          ++ [Call.SafeArrayUnaccessData, Call.CreateInstance t.get_FullName.2]) := by
  have hs := scan_match classname pre t post hpre ht.1 ht.2 0 ""
    (tr ++ [Call.GetTypes] ++
      [Call.SafeArrayGetLBound, Call.SafeArrayGetUBound, Call.SafeArrayAccessData])
  rw [← hcat] at hs
  rw [construct_of_scan self classname var tr hok _ _ _ hs]
  simp [List.range_eq_range']

/-! ## Results on `ClrAssembly::construct` -/

/-- C4, as stated, fails: the one descriptor reports `Demo.Widget`, NUL, `Extra`, which is
not the requested name `Demo.Widget`; the comparison reads it up to the NUL, finds a match,
and `construct` requests the instance and returns `true`. -/
theorem construct_not_found_counterexample :
    demoNulName ≠ "Demo.Widget" ∧
      (⟨demoAssembly [⟨(S_OK, demoNulName)⟩] S_OK 42⟩ : ClrAssembly).construct
          "Demo.Widget" 7 []
        = (true, 42, [Call.GetTypes, Call.SafeArrayGetLBound, Call.SafeArrayGetUBound,
            Call.SafeArrayAccessData, Call.get_FullName 0, Call.SafeArrayUnaccessData,
            Call.CreateInstance demoNulName]) := by
  decide

/-- C4 (amended): when the catalogue is enumerated and the requested name equals no
descriptor's full name as the comparison reads it, that is, up to the name's first NUL
character (the empty catalogue included), `construct` returns `false`, leaves the caller's
variant alone and adds no `CreateInstance` call to the trace. (A name that holds no NUL
is read whole, `c_str_of_no_nul`.) -/
theorem construct_not_found (self : ClrAssembly) (classname : String) (var : variant_t)
    (tr : Trace) (hok : FAILED self.p_.GetTypes.1 = false)
    (hnone : ∀ t ∈ self.p_.GetTypes.2.pvData,
      FAILED t.get_FullName.1 = false → c_str t.get_FullName.2 ≠ classname) :
    (self.construct classname var tr).1 = false ∧
      (self.construct classname var tr).2.1 = var ∧
      ∃ new, (self.construct classname var tr).2.2 = tr ++ new ∧
        ∀ c ∈ new, c.isCreateInstance = false :=
  construct_without_match self classname var tr hok hnone

/-- The empty catalogue and a catalogue without the name: `construct` answers `false` and the
engine is not asked for an instance. -/
theorem construct_not_found_witness :
    ((⟨demoAssembly [] S_OK 42⟩ : ClrAssembly).construct "Demo.Widget" 7 []).1 = false ∧
      ((⟨demoAssembly [demoType "Demo.Other", demoBrokenType] S_OK 42⟩ :
          ClrAssembly).construct "Demo.Widget" 7 []).1 = false ∧
      ((⟨demoAssembly [demoType "Demo.Other", demoBrokenType] S_OK 42⟩ :
          ClrAssembly).construct "Demo.Widget" 7 []).2.1 = 7 :=
  ⟨(construct_not_found ⟨demoAssembly [] S_OK 42⟩ "Demo.Widget" 7 [] (by decide)
      (by simp [demoAssembly])).1,
    (construct_not_found ⟨demoAssembly [demoType "Demo.Other", demoBrokenType] S_OK 42⟩
      "Demo.Widget" 7 [] (by decide) (by decide)).1,
    (construct_not_found ⟨demoAssembly [demoType "Demo.Other", demoBrokenType] S_OK 42⟩
      "Demo.Widget" 7 [] (by decide) (by decide)).2.1⟩

/-- C5, as stated, fails: every descriptor reports its name and `Demo.Widget` is the full
name of exactly one of them (index 1), yet the scan matches index 0, whose name reads as
`Demo.Widget` up to its NUL, and the instance is requested under that 17-character name:
no request is made under the name `Demo.Widget`. -/
theorem construct_unique_match_counterexample :
    [(⟨(S_OK, demoNulName)⟩ : _Type), demoType "Demo.Widget"].countP
        (fun t => t.get_FullName.2 == "Demo.Widget") = 1 ∧
      (∀ t ∈ [(⟨(S_OK, demoNulName)⟩ : _Type), demoType "Demo.Widget"],
        FAILED t.get_FullName.1 = false) ∧
      demoNulName ≠ "Demo.Widget" ∧
      ((⟨demoAssembly [⟨(S_OK, demoNulName)⟩, demoType "Demo.Widget"] S_OK 42⟩ :
          ClrAssembly).construct "Demo.Widget" 7 []).2.2
        = [Call.GetTypes, Call.SafeArrayGetLBound, Call.SafeArrayGetUBound,
            Call.SafeArrayAccessData, Call.get_FullName 0, Call.SafeArrayUnaccessData,
            Call.CreateInstance demoNulName] ∧
      Call.CreateInstance "Demo.Widget" ∉
        ((⟨demoAssembly [⟨(S_OK, demoNulName)⟩, demoType "Demo.Widget"] S_OK 42⟩ :
          ClrAssembly).construct "Demo.Widget" 7 []).2.2 := by
  decide

/-- C5 (amended): when the catalogue is enumerated, every descriptor reports its name and
exactly one descriptor's full name, read up to its first NUL character, equals the requested
name, `construct` asks the engine for an instance exactly once, under that descriptor's full
name as reported (equal to the requested name up to its first NUL, and equal to it when it
holds no NUL); if that request succeeds `construct` returns `true` and the caller's variant
holds what the engine produced. -/
theorem construct_unique_match (self : ClrAssembly) (classname : String) (var : variant_t)
    (tr : Trace) (hok : FAILED self.p_.GetTypes.1 = false)
    (hnames : ∀ t ∈ self.p_.GetTypes.2.pvData, FAILED t.get_FullName.1 = false)
    (hone : self.p_.GetTypes.2.pvData.countP
      (fun t => c_str t.get_FullName.2 == classname) = 1) :
    ∃ t ∈ self.p_.GetTypes.2.pvData,
      c_str t.get_FullName.2 = classname ∧
      (Char.ofNat 0 ∉ t.get_FullName.2.data → t.get_FullName.2 = classname) ∧
      (∃ new, (self.construct classname var tr).2.2 = tr ++ new ∧
        new.filter Call.isCreateInstance = [Call.CreateInstance t.get_FullName.2]) ∧
      (FAILED (self.p_.CreateInstance t.get_FullName.2 var).1 = false →
        (self.construct classname var tr).1 = true ∧
        (self.construct classname var tr).2.1
          = (self.p_.CreateInstance t.get_FullName.2 var).2) := by
  have hex : ∃ x ∈ self.p_.GetTypes.2.pvData,
      (fun t : _TypePtr => c_str t.get_FullName.2 == classname) x = true := by
    apply List.countP_pos_iff.mp
    omega
  obtain ⟨pre, t, post, hcat, ht, hpre⟩ := split_at_first _ _ hex
  have hpre' : ∀ u ∈ pre,
      FAILED u.get_FullName.1 = false ∧ c_str u.get_FullName.2 ≠ classname := by
    intro u hu
    refine ⟨hnames u (by rw [hcat]; simp [hu]), ?_⟩
    simpa using hpre u hu
  have htn : c_str t.get_FullName.2 = classname := by simpa using ht
  have ht' : FAILED t.get_FullName.1 = false ∧ c_str t.get_FullName.2 = classname :=
    ⟨hnames t (by rw [hcat]; simp), htn⟩
  have hc := construct_at_first_match self classname var tr pre t post hok hcat hpre' ht'
  refine ⟨t, by rw [hcat]; simp, htn, ?_, ?_, ?_⟩
  · intro h0
    rw [← c_str_of_no_nul _ h0]
    exact htn
  · rw [hc]
    refine ⟨_, by simp only [List.append_assoc]; rfl, ?_⟩
    simp [List.filter_append, List.filter_map, Call.isCreateInstance, Function.comp_def]
  · intro hcr
    rw [hc]
    simp [hcr]

/-- The catalogue of `demoCatalogue` holds `Demo.Widget` once: one instance request, under
that name, and the engine's instance `42` comes back. -/
theorem construct_unique_match_witness :
    ∃ t ∈ demoCatalogue,
      c_str t.get_FullName.2 = "Demo.Widget" ∧
      (Char.ofNat 0 ∉ t.get_FullName.2.data → t.get_FullName.2 = "Demo.Widget") ∧
      (∃ new, ((⟨demoAssembly demoCatalogue S_OK 42⟩ : ClrAssembly).construct
          "Demo.Widget" 7 []).2.2 = [] ++ new ∧
        new.filter Call.isCreateInstance = [Call.CreateInstance t.get_FullName.2]) ∧
      (FAILED ((demoAssembly demoCatalogue S_OK 42).CreateInstance t.get_FullName.2 7).1
          = false →
        ((⟨demoAssembly demoCatalogue S_OK 42⟩ : ClrAssembly).construct
          "Demo.Widget" 7 []).1 = true ∧
        ((⟨demoAssembly demoCatalogue S_OK 42⟩ : ClrAssembly).construct
          "Demo.Widget" 7 []).2.1
          = ((demoAssembly demoCatalogue S_OK 42).CreateInstance t.get_FullName.2 7).2) :=
  construct_unique_match ⟨demoAssembly demoCatalogue S_OK 42⟩ "Demo.Widget" 7 []
    (by decide) (by decide) (by decide)

/-- C9, as stated, fails: in the catalogue `[broken, Demo.Widget]` the first (and only)
descriptor named `Demo.Widget` is at index 1, yet the scan ends at index 0, where the name
query fails; descriptor 1 is never queried and `construct` returns `false`. -/
theorem construct_scan_counterexample :
    (demoType "Demo.Widget").get_FullName.2 = "Demo.Widget" ∧
      demoBrokenType.get_FullName.2 ≠ "Demo.Widget" ∧
      (⟨demoAssembly [demoBrokenType, demoType "Demo.Widget"] S_OK 42⟩ :
          ClrAssembly).construct "Demo.Widget" 7 []
        = (false, 7, [Call.GetTypes, Call.SafeArrayGetLBound, Call.SafeArrayGetUBound,
            Call.SafeArrayAccessData, Call.get_FullName 0, Call.SafeArrayUnaccessData]) ∧
      Call.get_FullName 1 ∉ ((⟨demoAssembly [demoBrokenType, demoType "Demo.Widget"] S_OK 42⟩ :
          ClrAssembly).construct "Demo.Widget" 7 []).2.2 := by
  decide

/-- C9 (amended): the scan is linear, in catalogue order, and stops at the first match or
at the first failing name query; a descriptor matches when its full name, read up to its
first NUL character, equals the requested name exactly (case-sensitively). If the
descriptors at indices `0 .. k-1` report names that do not match and descriptor `k` reports
a name that does, then the calls made are: the enumeration, the name queries of descriptors
`0, 1, .., k` in this order, no further name query, and one instance request under the
name descriptor `k` reported. A reported name that reads differently from the requested one
is not a match; in particular one that differs from it in letter case only is not. -/
theorem construct_first_match (self : ClrAssembly) (classname : String) (var : variant_t)
    (tr : Trace) (pre : List _TypePtr) (t : _TypePtr) (post : List _TypePtr)
    (hok : FAILED self.p_.GetTypes.1 = false)
    (hcat : self.p_.GetTypes.2.pvData = pre ++ t :: post)
    (hpre : ∀ u ∈ pre, FAILED u.get_FullName.1 = false ∧ c_str u.get_FullName.2 ≠ classname)
    (ht : FAILED t.get_FullName.1 = false ∧ c_str t.get_FullName.2 = classname) :
    (self.construct classname var tr).2.2 =
        tr ++ [Call.GetTypes, Call.SafeArrayGetLBound, Call.SafeArrayGetUBound,
            Call.SafeArrayAccessData]
          ++ (List.range (pre.length + 1)).map Call.get_FullName
          ++ [Call.SafeArrayUnaccessData, Call.CreateInstance t.get_FullName.2] ∧
      (self.construct classname var tr).1
        = !FAILED (self.p_.CreateInstance t.get_FullName.2 var).1 ∧
      (∀ (d : _TypePtr) (i : Nat) (pName : BSTR) (tr0 : Trace),
        c_str d.get_FullName.2 ≠ classname →
          (ClrAssembly.scan classname [d] i pName tr0).1 = false) ∧
      (∀ (d : _TypePtr) (i : Nat) (pName : BSTR) (tr0 : Trace),
        d.get_FullName.2 ≠ classname →
        d.get_FullName.2.data.map Char.toLower = classname.data.map Char.toLower →
          (ClrAssembly.scan classname [d] i pName tr0).1 = false) := by
  have hsingle : ∀ (d : _TypePtr) (i : Nat) (pName : BSTR) (tr0 : Trace),
      c_str d.get_FullName.2 ≠ classname →
        (ClrAssembly.scan classname [d] i pName tr0).1 = false := by
    intro d i pName tr0 hd
    have hne : wstring_eq d.get_FullName.2 classname = false := by
      simpa [wstring_eq] using hd
    cases hf : FAILED d.get_FullName.1 <;> simp [ClrAssembly.scan, hf, hne]
  rw [construct_at_first_match self classname var tr pre t post hok hcat hpre ht]
  refine ⟨rfl, rfl, hsingle, ?_⟩
  intro d i pName tr0 hd hcase
  apply hsingle
  apply c_str_ne_of_same_length _ _ hd
  have hl := congrArg List.length hcase
  simpa using hl

/-- In `demoCatalogue` the name `demo.widget` at index 1 differs from `Demo.Widget` in case
only and is passed over; the match is at index 2 and index 3 is not queried. -/
theorem construct_first_match_witness :
    ((⟨demoAssembly demoCatalogue S_OK 42⟩ : ClrAssembly).construct "Demo.Widget" 7 []).2.2
      = [Call.GetTypes, Call.SafeArrayGetLBound, Call.SafeArrayGetUBound,
          Call.SafeArrayAccessData, Call.get_FullName 0, Call.get_FullName 1,
          Call.get_FullName 2, Call.SafeArrayUnaccessData,
          Call.CreateInstance "Demo.Widget"] ∧
      "demo.widget".data.map Char.toLower = "Demo.Widget".data.map Char.toLower ∧
      (ClrAssembly.scan "Demo.Widget" [demoType "demo.widget"] 0 "" []).1 = false :=
  ⟨(construct_first_match ⟨demoAssembly demoCatalogue S_OK 42⟩ "Demo.Widget" 7 []
      [demoType "Demo.Other", demoType "demo.widget"] (demoType "Demo.Widget")
      [demoType "Demo.Last"] (by decide) rfl (by decide) (by decide)).1,
    by decide,
    (construct_first_match ⟨demoAssembly demoCatalogue S_OK 42⟩ "Demo.Widget" 7 []
      [demoType "Demo.Other", demoType "demo.widget"] (demoType "Demo.Widget")
      [demoType "Demo.Last"] (by decide) rfl (by decide) (by decide)).2.2.2
      (demoType "demo.widget") 0 "" [] (by decide) (by decide)⟩

/-- C10: when the name query of the descriptor at index `j` fails before any match has been
found (the descriptors before it reported names that the comparison found different from
the requested one), the scan ends at `j`: `construct` returns `false` (the value it returns
for not-found), the caller's variant is untouched, the name queries made are those of
descriptors `0 .. j`, and no instance is requested, whatever the descriptors after `j` are
named. -/
theorem construct_name_query_fails (self : ClrAssembly) (classname : String)
    (var : variant_t) (tr : Trace) (pre : List _TypePtr) (t : _TypePtr)
    (post : List _TypePtr) (hok : FAILED self.p_.GetTypes.1 = false)
    (hcat : self.p_.GetTypes.2.pvData = pre ++ t :: post)
    (hpre : ∀ u ∈ pre, FAILED u.get_FullName.1 = false ∧
      wstring_eq u.get_FullName.2 classname = false)
    (hfail : FAILED t.get_FullName.1 = true) :
    self.construct classname var tr =
        (false, var,
          tr ++ [Call.GetTypes, Call.SafeArrayGetLBound, Call.SafeArrayGetUBound,
              Call.SafeArrayAccessData]
            ++ (List.range (pre.length + 1)).map Call.get_FullName
            ++ [Call.SafeArrayUnaccessData]) ∧
      ∀ name, Call.CreateInstance name ∈ (self.construct classname var tr).2.2 →
        Call.CreateInstance name ∈ tr := by
  have hpre' : ∀ u ∈ pre,
      FAILED u.get_FullName.1 = false ∧ c_str u.get_FullName.2 ≠ classname := by
    intro u hu
    refine ⟨(hpre u hu).1, ?_⟩
    simpa [wstring_eq] using (hpre u hu).2
  have hs := scan_query_fails classname pre t post hpre' hfail 0 ""
    (tr ++ [Call.GetTypes] ++
      [Call.SafeArrayGetLBound, Call.SafeArrayGetUBound, Call.SafeArrayAccessData])
  rw [← hcat] at hs
  rw [construct_of_scan self classname var tr hok _ _ _ hs]
  refine ⟨by simp [List.range_eq_range'], ?_⟩
  intro name hmem
  simpa using hmem

/-- The query fails at index 1 while `Demo.Widget` sits at index 2: `construct` stops at 1,
returns `false` and requests no instance. -/
theorem construct_name_query_fails_witness :
    (⟨demoAssembly [demoType "Demo.Other", demoBrokenType, demoType "Demo.Widget"] S_OK 42⟩ :
        ClrAssembly).construct "Demo.Widget" 7 []
      = (false, 7, [] ++ [Call.GetTypes, Call.SafeArrayGetLBound, Call.SafeArrayGetUBound,
          Call.SafeArrayAccessData] ++ (List.range (1 + 1)).map Call.get_FullName
          ++ [Call.SafeArrayUnaccessData]) :=
  (construct_name_query_fails
    ⟨demoAssembly [demoType "Demo.Other", demoBrokenType, demoType "Demo.Widget"] S_OK 42⟩
    "Demo.Widget" 7 [] [demoType "Demo.Other"] demoBrokenType [demoType "Demo.Widget"]
    (by decide) rfl (by decide) (by decide)).1

/-- C6, as stated, fails: with `Demo.Widget` in the catalogue and the engine refusing to
create it, `construct` returns the same `false`, with the same untouched variant, as with a
catalogue that lacks the name. -/
theorem construct_failure_counterexample :
    Call.CreateInstance "Demo.Widget" ∈
        ((⟨demoAssembly [demoType "Demo.Widget"] E_FAIL 42⟩ : ClrAssembly).construct
          "Demo.Widget" 7 []).2.2 ∧
      ((⟨demoAssembly [demoType "Demo.Widget"] E_FAIL 42⟩ : ClrAssembly).construct
          "Demo.Widget" 7 []).1 = false ∧
      ((⟨demoAssembly [demoType "Demo.Other"] E_FAIL 42⟩ : ClrAssembly).construct
          "Demo.Widget" 7 []).1 = false ∧
      ¬ (((⟨demoAssembly [demoType "Demo.Widget"] E_FAIL 42⟩ : ClrAssembly).construct
            "Demo.Widget" 7 []).1
          ≠ ((⟨demoAssembly [demoType "Demo.Other"] E_FAIL 42⟩ : ClrAssembly).construct
            "Demo.Widget" 7 []).1) ∧
      ((⟨demoAssembly [demoType "Demo.Widget"] E_FAIL 42⟩ : ClrAssembly).construct
          "Demo.Widget" 7 []).2.1
        = ((⟨demoAssembly [demoType "Demo.Other"] E_FAIL 42⟩ : ClrAssembly).construct
            "Demo.Widget" 7 []).2.1 := by
  decide

/-- C6 (amended): `construct` returns the same value in the two cases: `false` when a
descriptor matches and the engine's instance creation fails, and `false` when no descriptor
matches. What differs between the two runs is their effect, not the value returned: the
former makes one `CreateInstance` call, after the name queries up to the match, and leaves
in the caller's variant whatever the engine left there; the latter makes no `CreateInstance`
call and leaves the variant untouched. -/
theorem construct_failure_same_as_not_found (a b : ClrAssembly) (classname : String)
    (var : variant_t) (tr : Trace) (pre : List _TypePtr) (t : _TypePtr)
    (post : List _TypePtr) (hokA : FAILED a.p_.GetTypes.1 = false)
    (hcat : a.p_.GetTypes.2.pvData = pre ++ t :: post)
    (hpre : ∀ u ∈ pre, FAILED u.get_FullName.1 = false ∧ c_str u.get_FullName.2 ≠ classname)
    (ht : FAILED t.get_FullName.1 = false ∧ c_str t.get_FullName.2 = classname)
    (hcreate : FAILED (a.p_.CreateInstance t.get_FullName.2 var).1 = true)
    (hokB : FAILED b.p_.GetTypes.1 = false)
    (hnone : ∀ u ∈ b.p_.GetTypes.2.pvData,
      FAILED u.get_FullName.1 = false → c_str u.get_FullName.2 ≠ classname) :
    (a.construct classname var tr).1 = false ∧
      (b.construct classname var tr).1 = false ∧
      (a.construct classname var tr).1 = (b.construct classname var tr).1 ∧
      (a.construct classname var tr).2.2 =
        tr ++ [Call.GetTypes, Call.SafeArrayGetLBound, Call.SafeArrayGetUBound,
            Call.SafeArrayAccessData]
          ++ (List.range (pre.length + 1)).map Call.get_FullName
          ++ [Call.SafeArrayUnaccessData, Call.CreateInstance t.get_FullName.2] ∧
      (a.construct classname var tr).2.1 = (a.p_.CreateInstance t.get_FullName.2 var).2 ∧
      (b.construct classname var tr).2.1 = var ∧
      (∃ new, (b.construct classname var tr).2.2 = tr ++ new ∧
        ∀ c ∈ new, c.isCreateInstance = false) := by
  obtain ⟨hb1, hb2, hb3⟩ := construct_without_match b classname var tr hokB hnone
  rw [hb1, construct_at_first_match a classname var tr pre t post hokA hcat hpre ht]
  exact ⟨by simp [hcreate], rfl, by simp [hcreate], rfl, rfl, hb2, hb3⟩

/-- A present type the engine cannot create, against an absent type: both answers are
`false`, and only the first run requests an instance. -/
theorem construct_failure_same_as_not_found_witness :
    ((⟨demoAssembly demoCatalogue E_FAIL 42⟩ : ClrAssembly).construct "Demo.Widget" 7 []).1
      = ((⟨demoAssembly [demoType "Demo.Other", demoType "demo.widget"] S_OK 42⟩ :
          ClrAssembly).construct "Demo.Widget" 7 []).1 :=
  (construct_failure_same_as_not_found ⟨demoAssembly demoCatalogue E_FAIL 42⟩
    ⟨demoAssembly [demoType "Demo.Other", demoType "demo.widget"] S_OK 42⟩ "Demo.Widget" 7 []
    [demoType "Demo.Other", demoType "demo.widget"] (demoType "Demo.Widget")
    [demoType "Demo.Last"] (by decide) rfl (by decide) (by decide) (by decide) (by decide)
    (by decide)).2.2.1

/-! ## Results on `ClrDomain::load` -/

/-- Under the size guard the narrowing to `ULONG` keeps the size. -/
theorem static_cast_ULONG_of_le (n : Nat) (h : n ≤ ULONG_MAX) : static_cast_ULONG n = n := by
  unfold static_cast_ULONG
  exact Nat.mod_eq_of_lt (by omega)

/-- Copying the whole image into a fresh array of the image's size leaves exactly the image
behind the data pointer. -/
theorem memcpy_fresh (api : Win32) (mod : List uint8_t) (p : SAFEARRAY)
    (h : SafeArrayCreateVector api mod.length = some p) :
    memcpy p mod mod.length = ⟨p.addr, mod.length, mod⟩ := by
  unfold SafeArrayCreateVector at h
  cases ha : api.SafeArrayAlloc mod.length with
  | none => rw [ha] at h; cases h
  | some a =>
    rw [ha] at h
    simp only [Option.map_some', Option.some.injEq] at h
    subst h
    simp [memcpy]

/-- What `load` does once the size guard is passed, the default domain obtained and the
buffer allocated. -/
theorem load_past_alloc (api : Win32) (self : ClrDomain) (mod : List uint8_t) (tr : Trace)
    (p : SAFEARRAY) (hsz : mod.length ≤ ULONG_MAX)
    (hdom : FAILED self.pHost_.GetDefaultDomain.1 = false)
    (hqi : FAILED self.pHost_.GetDefaultDomain.2.QueryInterface.1 = false)
    (halloc : SafeArrayCreateVector api (static_cast_ULONG mod.length) = some p) :
    ClrDomain.load api self mod tr =
      if FAILED (api.SafeArrayAccessData p) then
        (none, self, tr ++ [Call.GetDefaultDomain, Call.QueryInterface,
          Call.SafeArrayCreateVector mod.length, Call.SafeArrayAccessData])
      else if FAILED (self.pHost_.GetDefaultDomain.2.QueryInterface.2.Load_3
          ⟨p.addr, mod.length, mod⟩).1 then
        (none, self, tr ++ [Call.GetDefaultDomain, Call.QueryInterface,
          Call.SafeArrayCreateVector mod.length, Call.SafeArrayAccessData,
          Call.SafeArrayUnaccessData, Call.Load_3 ⟨p.addr, mod.length, mod⟩])
      else
        (some ⟨(self.pHost_.GetDefaultDomain.2.QueryInterface.2.Load_3
            ⟨p.addr, mod.length, mod⟩).2⟩,
          { self with arr_ := self.arr_ ++ [⟨p.addr, mod.length, mod⟩] },
          tr ++ [Call.GetDefaultDomain, Call.QueryInterface,
            Call.SafeArrayCreateVector mod.length, Call.SafeArrayAccessData,
            Call.SafeArrayUnaccessData, Call.Load_3 ⟨p.addr, mod.length, mod⟩]) := by
  have hcast := static_cast_ULONG_of_le mod.length hsz
  rw [hcast] at halloc
  have hcpy := memcpy_fresh api mod p halloc
  have hgt : ¬ mod.length > ULONG_MAX := by omega
  unfold ClrDomain.load
  simp only [hgt, if_false, hdom, hqi, Bool.false_eq_true, hcast, halloc, hcpy]
  cases FAILED (api.SafeArrayAccessData p) <;>
    cases FAILED (self.pHost_.GetDefaultDomain.2.QueryInterface.2.Load_3
      ⟨p.addr, mod.length, mod⟩).1 <;> simp

/-- C1: an image longer than `ULONG_MAX` makes `load` return the null pointer at once: the
trace is unchanged (no default-domain query, no allocation, no assembly load) and so is the
host, its retention list included. -/
theorem load_oversized (api : Win32) (self : ClrDomain) (mod : List uint8_t) (tr : Trace)
    (hbig : mod.length > ULONG_MAX) :
    ClrDomain.load api self mod tr = (none, self, tr) := by
  unfold ClrDomain.load
  simp [hbig]

/-- An image of `2^32` bytes is refused without any call. -/
theorem load_oversized_witness :
    (List.replicate 4294967296 (0 : uint8_t)).length > ULONG_MAX ∧
      ClrDomain.load (demoWin32 demoRuntime) demoDomain (List.replicate 4294967296 0) []
        = (none, demoDomain, []) :=
  ⟨by rw [List.length_replicate]; decide,
    load_oversized (demoWin32 demoRuntime) demoDomain (List.replicate 4294967296 0) []
      (by rw [List.length_replicate]; decide)⟩

/-- C3: when the size is within bound and the default domain, the allocation, the buffer
access and the engine's load all succeed, `load` returns a non-null handle wrapping the
assembly the engine answered, and the retention list afterwards is the list before with one
entry appended, the buffer handed to the engine; every earlier entry keeps its position. -/
theorem load_success (api : Win32) (self : ClrDomain) (mod : List uint8_t) (tr : Trace)
    (p : SAFEARRAY) (hsz : mod.length ≤ ULONG_MAX)
    (hdom : FAILED self.pHost_.GetDefaultDomain.1 = false)
    (hqi : FAILED self.pHost_.GetDefaultDomain.2.QueryInterface.1 = false)
    (halloc : SafeArrayCreateVector api (static_cast_ULONG mod.length) = some p)
    (hacc : FAILED (api.SafeArrayAccessData p) = false)
    (hload : FAILED (self.pHost_.GetDefaultDomain.2.QueryInterface.2.Load_3
      ⟨p.addr, mod.length, mod⟩).1 = false) :
    (ClrDomain.load api self mod tr).1 =
        some ⟨(self.pHost_.GetDefaultDomain.2.QueryInterface.2.Load_3
          ⟨p.addr, mod.length, mod⟩).2⟩ ∧
      (ClrDomain.load api self mod tr).2.1.arr_ = self.arr_ ++ [⟨p.addr, mod.length, mod⟩] ∧
      (∀ i, i < self.arr_.length →
        (ClrDomain.load api self mod tr).2.1.arr_[i]? = self.arr_[i]?) ∧
      (ClrDomain.load api self mod tr).2.1.arr_.length = self.arr_.length + 1 ∧
      (ClrDomain.load api self mod tr).2.2 =
        tr ++ [Call.GetDefaultDomain, Call.QueryInterface,
          Call.SafeArrayCreateVector mod.length, Call.SafeArrayAccessData,
          Call.SafeArrayUnaccessData, Call.Load_3 ⟨p.addr, mod.length, mod⟩] := by
  rw [load_past_alloc api self mod tr p hsz hdom hqi halloc]
  rw [hacc, hload, if_neg Bool.false_ne_true, if_neg Bool.false_ne_true]
  refine ⟨rfl, rfl, ?_, ?_, rfl⟩
  · intro i hi
    exact List.getElem?_append_left hi
  · exact List.length_append _ _

/-- A three-byte image starting with `0x4D` on the demo host: the handle wraps the demo
assembly's catalogue and the list grows from one entry to two, the old one first. -/
theorem load_success_witness :
    (ClrDomain.load (demoWin32 demoRuntime) demoDomain [77, 90, 0] []).2.1.arr_
      = demoDomain.arr_ ++ [⟨4096, 3, [77, 90, 0]⟩] :=
  (load_success (demoWin32 demoRuntime) demoDomain [77, 90, 0] [] ⟨4096, 3, [0, 0, 0]⟩
    (by decide) (by decide) (by decide) (by decide) (by decide) (by decide)).2.1

/-- C8: for an image within the size bound, any buffer that reaches the engine's `Load_3`
was created with exactly as many elements as the image has bytes (the narrowing to `ULONG`
loses nothing) and holds exactly the image's bytes. -/
theorem load_buffer_verbatim (api : Win32) (self : ClrDomain) (mod : List uint8_t)
    (buf : SAFEARRAY) (hsz : mod.length ≤ ULONG_MAX)
    (hreach : Call.Load_3 buf ∈ (ClrDomain.load api self mod []).2.2) :
    buf.cElements = mod.length ∧ buf.pvData = mod ∧
      static_cast_ULONG mod.length = mod.length ∧
      Call.SafeArrayCreateVector mod.length ∈ (ClrDomain.load api self mod []).2.2 := by
  have hgt : ¬ mod.length > ULONG_MAX := by omega
  have hcast := static_cast_ULONG_of_le mod.length hsz
  cases hdom : FAILED self.pHost_.GetDefaultDomain.1 with
  | true =>
    exfalso
    unfold ClrDomain.load at hreach
    simp [hgt, hdom] at hreach
  | false =>
    cases hqi : FAILED self.pHost_.GetDefaultDomain.2.QueryInterface.1 with
    | true =>
      exfalso
      unfold ClrDomain.load at hreach
      simp [hgt, hdom, hqi] at hreach
    | false =>
      cases halloc : SafeArrayCreateVector api (static_cast_ULONG mod.length) with
      | none =>
        exfalso
        unfold ClrDomain.load at hreach
        simp [hgt, hdom, hqi, halloc] at hreach
      | some p =>
        have hl := load_past_alloc api self mod [] p hsz hdom hqi halloc
        rw [hl] at hreach ⊢
        cases hacc : FAILED (api.SafeArrayAccessData p) with
        | true => simp [hacc] at hreach
        | false =>
          cases hload : FAILED (self.pHost_.GetDefaultDomain.2.QueryInterface.2.Load_3
              ⟨p.addr, mod.length, mod⟩).1 <;>
            · simp only [hacc, hload, Bool.false_eq_true, if_false, if_true, List.nil_append,
                List.mem_cons, List.mem_singleton, List.not_mem_nil, or_false, reduceCtorEq,
                false_or, Call.Load_3.injEq] at hreach
              subst hreach
              exact ⟨rfl, rfl, hcast, by simp⟩

/-- The buffer the demo host passes to `Load_3` for a three-byte image is that image. -/
theorem load_buffer_verbatim_witness :
    Call.Load_3 ⟨4096, 3, [77, 90, 0]⟩ ∈
        (ClrDomain.load (demoWin32 demoRuntime) demoDomain [77, 90, 0] []).2.2 ∧
      (⟨4096, 3, [77, 90, 0]⟩ : SAFEARRAY).pvData = [77, 90, 0] :=
  ⟨by decide,
    (load_buffer_verbatim (demoWin32 demoRuntime) demoDomain [77, 90, 0]
      ⟨4096, 3, [77, 90, 0]⟩ (by decide) (by decide)).2.1⟩

/-- One call of `load` lengthens the retention list by one when it returns a module and
leaves its length alone when it returns null. -/
theorem load_arr_length (api : Win32) (self : ClrDomain) (mod : List uint8_t) (tr : Trace) :
    (ClrDomain.load api self mod tr).2.1.arr_.length =
      self.arr_.length + (if (ClrDomain.load api self mod tr).1.isSome then 1 else 0) := by
  unfold ClrDomain.load
  by_cases hgt : mod.length > ULONG_MAX
  · simp [hgt]
  · cases hdom : FAILED self.pHost_.GetDefaultDomain.1
    · cases hqi : FAILED self.pHost_.GetDefaultDomain.2.QueryInterface.1
      · cases halloc : SafeArrayCreateVector api (static_cast_ULONG mod.length) with
        | none => simp [hgt, hdom, hqi, halloc]
        | some p =>
          cases hacc : FAILED (api.SafeArrayAccessData p)
          · cases hload : FAILED (self.pHost_.GetDefaultDomain.2.QueryInterface.2.Load_3
                (memcpy p mod mod.length)).1 <;>
              simp [hgt, hdom, hqi, halloc, hacc, hload]
          · simp [hgt, hdom, hqi, halloc, hacc]
      · simp [hgt, hdom, hqi]
    · simp [hgt, hdom]

/-- Over a sequence of calls the retention list grows by the number of modules returned. -/
theorem loadAll_arr_length (calls : List (Win32 × List uint8_t)) (self : ClrDomain)
    (tr : Trace) :
    (self.loadAll calls tr).2.1.arr_.length =
      self.arr_.length + ((self.loadAll calls tr).1.filter Option.isSome).length := by
  induction calls generalizing self tr with
  | nil => simp [ClrDomain.loadAll]
  | cons c rest ih =>
    simp only [ClrDomain.loadAll]
    rw [ih, load_arr_length]
    cases (ClrDomain.load c.1 self c.2 tr).1 <;> simp [List.filter_cons, Nat.add_assoc, Nat.add_comm]

/-- C2, as stated, fails: on the demo host the buffer for the image `[0, 1, 2]` is allocated
and handed to `Load_3`, the engine rejects it, and the retention list still has its one
earlier entry: the rejected buffer is not in it. -/
theorem load_failure_counterexample :
    (ClrDomain.load (demoWin32 demoRuntime) demoDomain [0, 1, 2] []).2.2
        = [Call.GetDefaultDomain, Call.QueryInterface, Call.SafeArrayCreateVector 3,
            Call.SafeArrayAccessData, Call.SafeArrayUnaccessData,
            Call.Load_3 ⟨4096, 3, [0, 1, 2]⟩] ∧
      (ClrDomain.load (demoWin32 demoRuntime) demoDomain [0, 1, 2] []).1.isSome = false ∧
      (ClrDomain.load (demoWin32 demoRuntime) demoDomain [0, 1, 2] []).2.1.arr_
        = demoDomain.arr_ ∧
      (ClrDomain.load (demoWin32 demoRuntime) demoDomain [0, 1, 2] []).2.1.arr_.length
        ≠ demoDomain.arr_.length + 1 ∧
      (⟨4096, 3, [0, 1, 2]⟩ : SAFEARRAY) ∉
        (ClrDomain.load (demoWin32 demoRuntime) demoDomain [0, 1, 2] []).2.1.arr_ := by
  decide

/-- C2 (amended): once the buffer is allocated, the retention list gains exactly one entry,
the buffer handed to the engine, when the buffer access and the engine's load succeed (the
call then returns a module), and is unchanged when either fails (the call then returns
null): a buffer the engine rejected is not retained in the list. Hence over any sequence of
`load` calls on one host the list grows by exactly the number of calls that returned a
module. -/
theorem load_retention (api : Win32) (self : ClrDomain) (mod : List uint8_t) (tr : Trace)
    (p : SAFEARRAY) (hsz : mod.length ≤ ULONG_MAX)
    (hdom : FAILED self.pHost_.GetDefaultDomain.1 = false)
    (hqi : FAILED self.pHost_.GetDefaultDomain.2.QueryInterface.1 = false)
    (halloc : SafeArrayCreateVector api (static_cast_ULONG mod.length) = some p) :
    ((ClrDomain.load api self mod tr).1.isSome = true ↔
        (FAILED (api.SafeArrayAccessData p) = false ∧
          FAILED (self.pHost_.GetDefaultDomain.2.QueryInterface.2.Load_3
            ⟨p.addr, mod.length, mod⟩).1 = false)) ∧
      ((ClrDomain.load api self mod tr).1.isSome = true →
        (ClrDomain.load api self mod tr).2.1.arr_
          = self.arr_ ++ [⟨p.addr, mod.length, mod⟩]) ∧
      ((ClrDomain.load api self mod tr).1.isSome = false →
        (ClrDomain.load api self mod tr).2.1.arr_ = self.arr_) ∧
      ∀ (calls : List (Win32 × List uint8_t)) (tr0 : Trace),
        (self.loadAll calls tr0).2.1.arr_.length =
          self.arr_.length + ((self.loadAll calls tr0).1.filter Option.isSome).length := by
  rw [load_past_alloc api self mod tr p hsz hdom hqi halloc]
  refine ⟨?_, ?_, ?_, fun calls tr0 => loadAll_arr_length calls self tr0⟩ <;>
    cases FAILED (api.SafeArrayAccessData p) <;>
    cases FAILED (self.pHost_.GetDefaultDomain.2.QueryInterface.2.Load_3
      ⟨p.addr, mod.length, mod⟩).1 <;> simp

/-- On the demo host an accepted image is retained and a rejected one is not: after the two
calls the list has grown from one entry to two. -/
theorem load_retention_witness :
    ((ClrDomain.load (demoWin32 demoRuntime) demoDomain [0, 1, 2] []).1.isSome = false →
        (ClrDomain.load (demoWin32 demoRuntime) demoDomain [0, 1, 2] []).2.1.arr_
          = demoDomain.arr_) ∧
      (demoDomain.loadAll [(demoWin32 demoRuntime, [77, 90, 0]),
          (demoWin32 demoRuntime, [0, 1, 2])] []).2.1.arr_.length
        = demoDomain.arr_.length + 1 :=
  ⟨(load_retention (demoWin32 demoRuntime) demoDomain [0, 1, 2] [] ⟨4096, 3, [0, 0, 0]⟩
      (by decide) (by decide) (by decide) (by decide)).2.2.1,
    (load_retention (demoWin32 demoRuntime) demoDomain [0, 1, 2] [] ⟨4096, 3, [0, 0, 0]⟩
      (by decide) (by decide) (by decide) (by decide)).2.2.2
      [(demoWin32 demoRuntime, [77, 90, 0]), (demoWin32 demoRuntime, [0, 1, 2])] []⟩

/-! ## Results on the constructor `ClrDomain::ClrDomain` -/

/-- The third test of the constructor never fires: `FAILED` is applied to the `bool` value
of `(hr = IsLoadable(..)) || !loadable`, which converts to 0 or 1, never to a negative
status. -/
theorem loadable_test_never_fires (hr : HRESULT) (loadable : BOOL) :
    FAILED (boolToHRESULT (hr != 0 || loadable == 0)) = false := by
  cases h : (hr != 0 || loadable == 0) <;> simp [FAILED, boolToHRESULT]

/-- When the other four steps succeed the constructor produces a host and starts the engine,
whatever `IsLoadable` answers. -/
theorem ClrDomain_ctor_ignores_IsLoadable (api : Win32) (clr_version : String) (tr : Trace)
    (h1 : FAILED api.CLRCreateInstance.1 = false)
    (h2 : FAILED (api.CLRCreateInstance.2.GetRuntime clr_version).1 = false)
    (h4 : FAILED (api.CLRCreateInstance.2.GetRuntime clr_version).2.GetInterface.1 = false)
    (h5 : FAILED (api.CLRCreateInstance.2.GetRuntime clr_version).2.GetInterface.2.Start
      = false) :
    ClrDomain.ClrDomain api clr_version tr =
      (.ok ⟨api.CLRCreateInstance.2, (api.CLRCreateInstance.2.GetRuntime clr_version).2,
          (api.CLRCreateInstance.2.GetRuntime clr_version).2.GetInterface.2, []⟩,
        tr ++ [Call.CLRCreateInstance, Call.GetRuntime clr_version, Call.IsLoadable,
          Call.GetInterface, Call.Start]) := by
  unfold ClrDomain.ClrDomain
  simp [h1, h2, h4, h5, loadable_test_never_fires]

/-- The other four steps do abort the constructor: a failing step throws, and the trace ends
with that step. -/
theorem ClrDomain_ctor_aborts (api : Win32) (clr_version : String) (tr : Trace) :
    (FAILED api.CLRCreateInstance.1 = true →
        ClrDomain.ClrDomain api clr_version tr =
          (.error "Host initialization failed!", tr ++ [Call.CLRCreateInstance])) ∧
      (FAILED api.CLRCreateInstance.1 = false →
        FAILED (api.CLRCreateInstance.2.GetRuntime clr_version).1 = true →
        ClrDomain.ClrDomain api clr_version tr =
          (.error "Runtime init failed!",
            tr ++ [Call.CLRCreateInstance, Call.GetRuntime clr_version])) ∧
      (FAILED api.CLRCreateInstance.1 = false →
        FAILED (api.CLRCreateInstance.2.GetRuntime clr_version).1 = false →
        FAILED (api.CLRCreateInstance.2.GetRuntime clr_version).2.GetInterface.1 = true →
        ClrDomain.ClrDomain api clr_version tr =
          (.error "Unable to host application!",
            tr ++ [Call.CLRCreateInstance, Call.GetRuntime clr_version, Call.IsLoadable,
              Call.GetInterface])) ∧
      (FAILED api.CLRCreateInstance.1 = false →
        FAILED (api.CLRCreateInstance.2.GetRuntime clr_version).1 = false →
        FAILED (api.CLRCreateInstance.2.GetRuntime clr_version).2.GetInterface.1 = false →
        FAILED (api.CLRCreateInstance.2.GetRuntime clr_version).2.GetInterface.2.Start
          = true →
        ClrDomain.ClrDomain api clr_version tr =
          (.error "Host start failed!",
            tr ++ [Call.CLRCreateInstance, Call.GetRuntime clr_version, Call.IsLoadable,
              Call.GetInterface, Call.Start])) := by
  unfold ClrDomain.ClrDomain
  refine ⟨?_, ?_, ?_, ?_⟩
  · intro h1; simp [h1]
  · intro h1 h2; simp [h1, h2]
  · intro h1 h2 h4; simp [h1, h2, h4, loadable_test_never_fires]
  · intro h1 h2 h4 h5; simp [h1, h2, h4, h5, loadable_test_never_fires]

/-- C7 (the code departs from it): with a runtime that answers `loadable = FALSE`, and with
one whose `IsLoadable` query fails, the constructor does not abort at the third step: it goes
on to `GetInterface` and `Start` and produces a host. -/
theorem ClrDomain_ctor_not_loadable :
    ClrDomain.ClrDomain (demoWin32 demoRuntimeNotLoadable) "v4.0.30319" [] =
        (.ok ⟨⟨fun _ => (S_OK, demoRuntimeNotLoadable)⟩, demoRuntimeNotLoadable, demoHost, []⟩,
          [Call.CLRCreateInstance, Call.GetRuntime "v4.0.30319", Call.IsLoadable,
            Call.GetInterface, Call.Start]) ∧
      ClrDomain.ClrDomain (demoWin32 demoRuntimeQueryFails) "v4.0.30319" [] =
        (.ok ⟨⟨fun _ => (S_OK, demoRuntimeQueryFails)⟩, demoRuntimeQueryFails, demoHost, []⟩,
          [Call.CLRCreateInstance, Call.GetRuntime "v4.0.30319", Call.IsLoadable,
            Call.GetInterface, Call.Start]) ∧
      FAILED demoRuntimeQueryFails.IsLoadable.1 = true ∧
      demoRuntimeNotLoadable.IsLoadable.2 = 0 :=
  ⟨ClrDomain_ctor_ignores_IsLoadable (demoWin32 demoRuntimeNotLoadable) "v4.0.30319" []
      (by decide) (by decide) (by decide) (by decide),
    ClrDomain_ctor_ignores_IsLoadable (demoWin32 demoRuntimeQueryFails) "v4.0.30319" []
      (by decide) (by decide) (by decide) (by decide),
    by decide, by decide⟩

end clr
